import Mathlib

/-!
Formal model of the build-and-deploy pipeline orchestrator in
src/turn_3_model_a.py.

The script sequences: load config → create venv → install dependencies →
run tests → build docker image → tag → push → rewrite config → success
notification; on any exception it sends a failure notification, attempts
`rollback_deployment(repository, previous_tag)`, sends a rollback-outcome
notification and exits with status 1.

The embedding makes every external effect an explicit input: a `World`
records the outcome of each side-effecting call (venv creation, whether the
requirements file exists, pip's and unittest's exit statuses, the docker
daemon calls, slack delivery).  Each Python function becomes a Lean
function over those inputs, and `main` replays the script's control flow,
returning a `RunResult` that records the exit status, the on-disk config
after the run, every notification handed to `send_slack_notification`,
every actual execution of `rollback_deployment`, and which stages were
entered.
-/

namespace Pipeline

/-- The `[Docker]` section of config.ini: the keys `main` reads
(`ImageName`, `Repository`, `Tag`, `Version`).  The model treats the
config as total: every key the script reads is present. -/
structure DockerConfig where
  imageName : String
  repository : String
  tag : String
  version : String
  deriving DecidableEq

/-- Python exception values that reach the orchestrator's handlers.
`nameError n` models `NameError: name <n> is not defined`; `stageError`
stands for an opaque exception raised inside a stage (OSError from
`venv.create`, docker BuildError/APIError, ...). -/
inductive PyError where
  | fileNotFound (msg : String)
  | nameError (name : String)
  | stageError (msg : String)
  deriving DecidableEq

/-- What `str(e)` yields for the modelled exceptions (used in the
notification messages built by `main`'s except-block). -/
def errStr : PyError → String
  | PyError.fileNotFound msg => msg
  | PyError.nameError n => "name \x27" ++ n ++ "\x27 is not defined"
  | PyError.stageError msg => msg

/-- One run's external environment: the outcome of every side-effecting
call `main` makes, fixed in advance.  `delivery1`/`delivery2` are the
delivery outcomes of the first and second `requests.post` a run can make
(a run sends at most two notifications). -/
structure World where
  venvOk : Bool
  requirementsExists : Bool
  pipExit : Int
  testsExit : Int
  buildOk : Bool
  tagOk : Bool
  pushOk : Bool
  slackConfigured : Bool
  delivery1 : Bool
  delivery2 : Bool
  deriving DecidableEq

/-- Default of the `REQUIREMENTS_FILE` environment override (line 20). -/
def REQUIREMENTS_FILE : String := "requirements.txt"

/-- Line 49-57: `venv.create(venv_name, with_pip=True)`; the call either
returns or raises (modelled opaquely by `venvOk`). -/
def create_venv (venvOk : Bool) : Except PyError Unit :=
  if venvOk then Except.ok () else Except.error (PyError.stageError "venv creation failed")

/-- Lines 75-91.  If the requirements file exists the script runs
`os.system(f"{venv_python} -m pip install -r {requirements_file}")` and
DISCARDS the return value, so pip's exit status (`pipExit`) has no effect;
if the file does not exist it raises `FileNotFoundError`. -/
def install_dependencies (requirements_exists : Bool) (pipExit : Int) : Except PyError Unit :=
  if requirements_exists then
    Except.ok ()
  else
    Except.error (PyError.fileNotFound ("Requirements file " ++ REQUIREMENTS_FILE ++ " not found."))

/-- Lines 94-109.  On nonzero unittest exit the script executes
`raise subprocess.CalledProcessError(...)`, but `subprocess` is never
imported, so evaluating that expression itself raises
`NameError: name 'subprocess' is not defined`; either way an exception
propagates exactly when `testsExit ≠ 0`. -/
def run_tests (testsExit : Int) : Except PyError Unit :=
  if testsExit ≠ 0 then
    Except.error (PyError.nameError "subprocess")
  else
    Except.ok ()

/-- Lines 112-142: `client.images.build(...)`, re-raising BuildError. -/
def build_docker_image (buildOk : Bool) : Except PyError Unit :=
  if buildOk then Except.ok () else Except.error (PyError.stageError "docker build failed")

/-- Lines 145-162: `image.tag(repository, tag)`, re-raising APIError. -/
def tag_docker_image (tagOk : Bool) : Except PyError Unit :=
  if tagOk then Except.ok () else Except.error (PyError.stageError "docker tag failed")

/-- Lines 165-186: login and `client.images.push(...)`, re-raising APIError. -/
def push_docker_image (pushOk : Bool) : Except PyError Unit :=
  if pushOk then Except.ok () else Except.error (PyError.stageError "docker push failed")

/-- Delivery status of one notification attempt. -/
inductive SendStatus where
  | sent
  | deliveryFailed
  | skipped
  deriving DecidableEq

/-- Record of one call to `send_slack_notification`: the message handed in
and what became of it. -/
structure SendLog where
  message : String
  status : SendStatus
  deriving DecidableEq

/-- Boolean test that a send was skipped (no webhook configured). -/
def SendLog.skippedB (s : SendLog) : Bool :=
  match s.status with
  | SendStatus.skipped => true
  | _ => false

/-- Lines 189-208.  With a webhook configured the script posts and catches
`requests.RequestException` (delivery failure is only logged); without one
it logs a warning and does nothing.  The return type `SendLog` (no
`Except`) embeds that the function never raises to its caller. -/
def send_slack_notification (configured : Bool) (deliveryOk : Bool) (message : String) : SendLog :=
  if configured then
    if deliveryOk then { message := message, status := SendStatus.sent }
    else { message := message, status := SendStatus.deliveryFailed }
  else
    { message := message, status := SendStatus.skipped }

/-- Lines 211-230.  The body is `logger.info(...); try: pass; except: raise`:
it reads no state, writes no state, and returns normally on every input. -/
def rollback_deployment (repository : String) (previous_tag : String) : Except PyError Unit :=
  Except.ok ()

/-- The forward stages of `main`, in program order, plus the persist and
success-notification steps.  Used to record which stages a run entered. -/
inductive Stage where
  | venv
  | install
  | test
  | build
  | tagStage
  | push
  | persist
  | notifySuccess
  deriving DecidableEq

/-- Everything observable about one run of `main`: the process exit
status, the on-disk config when the process ends, the calls made to
`send_slack_notification` in order, each actual execution of
`rollback_deployment` with its arguments, the stages entered, and whether
the config rewrite (lines 256-259) was executed. -/
structure RunResult where
  exitCode : Nat
  finalConfig : DockerConfig
  sends : List SendLog
  rollbackCalls : List (String × String)
  stagesAttempted : List Stage
  configWritten : Bool
  deriving DecidableEq

/-- Lines 264-275, `main`'s except-block.  `repositoryVar` is the binding
state of the local variable `repository` at the moment the exception was
caught: it is `none` when the failure happened before line 248, in which
case evaluating `rollback_deployment(repository, previous_tag)` raises
`NameError` before `rollback_deployment` runs, the inner handler catches
it and sends the rollback-failure notification.  Both paths end in
`sys.exit(1)` and leave the on-disk config untouched. -/
def failurePath (w : World) (diskConfig : DockerConfig) (previous_tag : String)
    (repositoryVar : Option String) (e : PyError) (attempted : List Stage) : RunResult :=
  let n1 := send_slack_notification w.slackConfigured w.delivery1
      ("Deployment failed: " ++ errStr e ++ " ❌")
  match repositoryVar with
  | none =>
      let n2 := send_slack_notification w.slackConfigured w.delivery2
          ("Rollback failed: " ++ errStr (PyError.nameError "repository") ++ " ❌❌")
      { exitCode := 1, finalConfig := diskConfig, sends := [n1, n2],
        rollbackCalls := [], stagesAttempted := attempted, configWritten := false }
  | some repo =>
      match rollback_deployment repo previous_tag with
      | Except.ok _ =>
          let n2 := send_slack_notification w.slackConfigured w.delivery2
              ("Rolled back to previous version: " ++ previous_tag)
          { exitCode := 1, finalConfig := diskConfig, sends := [n1, n2],
            rollbackCalls := [(repo, previous_tag)], stagesAttempted := attempted,
            configWritten := false }
      | Except.error re =>
          let n2 := send_slack_notification w.slackConfigured w.delivery2
              ("Rollback failed: " ++ errStr re ++ " ❌❌")
          { exitCode := 1, finalConfig := diskConfig, sends := [n1, n2],
            rollbackCalls := [(repo, previous_tag)], stagesAttempted := attempted,
            configWritten := false }

/-- Lines 233-275, `main`.  The config is loaded once (`diskConfig`),
`previous_tag` is snapshotted from it before any stage runs (line 238),
the stages execute strictly in order inside the try-block, and the local
`repository` only becomes bound at line 248, after the test stage.  On
full success the in-memory `Tag` is set to `"v" + Version` and the config
file is rewritten (lines 256-259, modelled crash-free here; see
`persistWithCrash` for the crash behaviour of that write), then the
success notification is sent and the process exits 0. -/
def main (w : World) (diskConfig : DockerConfig) : RunResult :=
  let config := diskConfig
  let previous_tag := config.tag
  match create_venv w.venvOk with
  | Except.error e =>
      failurePath w diskConfig previous_tag none e [Stage.venv]
  | Except.ok _ =>
  match install_dependencies w.requirementsExists w.pipExit with
  | Except.error e =>
      failurePath w diskConfig previous_tag none e [Stage.venv, Stage.install]
  | Except.ok _ =>
  match run_tests w.testsExit with
  | Except.error e =>
      failurePath w diskConfig previous_tag none e [Stage.venv, Stage.install, Stage.test]
  | Except.ok _ =>
  let repository := config.repository
  let new_tag := "v" ++ config.version
  match build_docker_image w.buildOk with
  | Except.error e =>
      failurePath w diskConfig previous_tag (some repository) e
        [Stage.venv, Stage.install, Stage.test, Stage.build]
  | Except.ok _ =>
  match tag_docker_image w.tagOk with
  | Except.error e =>
      failurePath w diskConfig previous_tag (some repository) e
        [Stage.venv, Stage.install, Stage.test, Stage.build, Stage.tagStage]
  | Except.ok _ =>
  match push_docker_image w.pushOk with
  | Except.error e =>
      failurePath w diskConfig previous_tag (some repository) e
        [Stage.venv, Stage.install, Stage.test, Stage.build, Stage.tagStage, Stage.push]
  | Except.ok _ =>
  let config2 : DockerConfig := { config with tag := new_tag }
  let n := send_slack_notification w.slackConfigured w.delivery1 "Deployment successful! 🎉"
  { exitCode := 0, finalConfig := config2, sends := [n], rollbackCalls := [],
    stagesAttempted := [Stage.venv, Stage.install, Stage.test, Stage.build,
      Stage.tagStage, Stage.push, Stage.persist, Stage.notifySuccess],
    configWritten := true }

/-- The stage at which a run first fails, if any, following `main`'s
order: venv → install → test → build → tag → push. -/
inductive FailStage where
  | venv
  | install
  | test
  | build
  | tagStage
  | push
  deriving DecidableEq

/-- The first failing stage of a run, `none` when every stage succeeds.
Mirrors the conditions of the stage functions in `main`'s order. -/
def firstFailure (w : World) : Option FailStage :=
  if !w.venvOk then some FailStage.venv
  else if !w.requirementsExists then some FailStage.install
  else if w.testsExit ≠ 0 then some FailStage.test
  else if !w.buildOk then some FailStage.build
  else if !w.tagOk then some FailStage.tagStage
  else if !w.pushOk then some FailStage.push
  else none

/-- Whether the local variable `repository` (bound at line 248, between
the test and build stages) is bound when the given stage fails. -/
def repositoryBound : FailStage → Bool
  | FailStage.venv => false
  | FailStage.install => false
  | FailStage.test => false
  | FailStage.build => true
  | FailStage.tagStage => true
  | FailStage.push => true

/-- The stages a run enters when the given stage is the first to fail. -/
def stagesUpTo : FailStage → List Stage
  | FailStage.venv => [Stage.venv]
  | FailStage.install => [Stage.venv, Stage.install]
  | FailStage.test => [Stage.venv, Stage.install, Stage.test]
  | FailStage.build => [Stage.venv, Stage.install, Stage.test, Stage.build]
  | FailStage.tagStage =>
      [Stage.venv, Stage.install, Stage.test, Stage.build, Stage.tagStage]
  | FailStage.push =>
      [Stage.venv, Stage.install, Stage.test, Stage.build, Stage.tagStage, Stage.push]

/-- The exception `main` catches when the given stage is the first to fail. -/
def failError : FailStage → PyError
  | FailStage.venv => PyError.stageError "venv creation failed"
  | FailStage.install =>
      PyError.fileNotFound ("Requirements file " ++ REQUIREMENTS_FILE ++ " not found.")
  | FailStage.test => PyError.nameError "subprocess"
  | FailStage.build => PyError.stageError "docker build failed"
  | FailStage.tagStage => PyError.stageError "docker tag failed"
  | FailStage.push => PyError.stageError "docker push failed"

/-- The failure-notification message for a first failure at `fs`. -/
def failMessage (fs : FailStage) : String :=
  "Deployment failed: " ++ errStr (failError fs) ++ " ❌"

/-- The rollback-outcome notification message for a first failure at
`fs`: the rolled-back message when `repository` was bound, the
rollback-failure message (from the NameError at the call) when not. -/
def rollbackOutcomeMessage (fs : FailStage) (previous_tag : String) : String :=
  if repositoryBound fs then
    "Rolled back to previous version: " ++ previous_tag
  else
    "Rollback failed: " ++ errStr (PyError.nameError "repository") ++ " ❌❌"

/-- Every stage of a run succeeds (pip's exit status is deliberately
absent: the script never consults it). -/
def pipelineSucceedsB (w : World) : Bool :=
  w.venvOk && w.requirementsExists && (w.testsExit == 0) && w.buildOk && w.tagOk && w.pushOk

/-- Closed form of a fully successful run of `main`. -/
def successRun (w : World) (cfg : DockerConfig) : RunResult :=
  { exitCode := 0
    finalConfig := { cfg with tag := "v" ++ cfg.version }
    sends := [send_slack_notification w.slackConfigured w.delivery1 "Deployment successful! 🎉"]
    rollbackCalls := []
    stagesAttempted := [Stage.venv, Stage.install, Stage.test, Stage.build,
      Stage.tagStage, Stage.push, Stage.persist, Stage.notifySuccess]
    configWritten := true }

/-- Closed form of a run of `main` whose first failure is at `fs`. -/
def failRun (w : World) (cfg : DockerConfig) (fs : FailStage) : RunResult :=
  { exitCode := 1
    finalConfig := cfg
    sends := [send_slack_notification w.slackConfigured w.delivery1 (failMessage fs),
      send_slack_notification w.slackConfigured w.delivery2 (rollbackOutcomeMessage fs cfg.tag)]
    rollbackCalls := if repositoryBound fs then [(cfg.repository, cfg.tag)] else []
    stagesAttempted := stagesUpTo fs
    configWritten := false }

/-- A world where its delivery outcomes are replaced. -/
def setDelivery (w : World) (d1 d2 : Bool) : World :=
  { w with delivery1 := d1, delivery2 := d2 }

/-- A world where no slack webhook is configured. -/
def noWebhook (w : World) : World :=
  { w with slackConfigured := false }

/-- The delivery-independent part of a run: everything except the
notification delivery records. -/
def RunResult.outcome (r : RunResult) : Nat × DockerConfig × Bool × List (String × String) × List Stage :=
  (r.exitCode, r.finalConfig, r.configWritten, r.rollbackCalls, r.stagesAttempted)

/-- Serialization of the config the way `config.write(configfile)` writes
it (configparser lower-cases option names on read with the default
optionxform; values and the section name are kept).  Modelled as the
file's character sequence. -/
def serializeConfig (c : DockerConfig) : List Char :=
  ("[Docker]\nimagename = " ++ c.imageName
      ++ "\nrepository = " ++ c.repository
      ++ "\ntag = " ++ c.tag
      ++ "\nversion = " ++ c.version ++ "\n\n").data

/-- Crash points of the persistence step, lines 258-259:
`with open(CONFIG_FILE, 'w') as configfile: config.write(configfile)`.
Opening with mode `w` truncates the file in place; there is no temporary
file and no rename. -/
inductive CrashPoint where
  | beforeOpen
  | afterTruncate
  | midWrite (k : Nat)
  | afterWrite
  deriving DecidableEq

/-- On-disk content of the config file if the process crashes at the
given point of the persistence step: the old content only survives a
crash before `open`; from the truncation on, the disk holds a (possibly
empty, possibly partial) prefix of the new serialization. -/
def persistWithCrash (oldContent : List Char) (c : DockerConfig) : CrashPoint → List Char
  | CrashPoint.beforeOpen => oldContent
  | CrashPoint.afterTruncate => []
  | CrashPoint.midWrite k => (serializeConfig c).take k
  | CrashPoint.afterWrite => serializeConfig c

/-- Concrete config of the spec's scenarios: `Tag=v1.0`, `Version=2.0`. -/
def cfg0 : DockerConfig :=
  { imageName := "app", repository := "example/app", tag := "v1.0", version := "2.0" }

/-- The config after a fully successful run on `cfg0`. -/
def cfg0new : DockerConfig :=
  { cfg0 with tag := "v2.0" }

/-- A run where every external call succeeds. -/
def wAllOk : World :=
  { venvOk := true, requirementsExists := true, pipExit := 0, testsExit := 0,
    buildOk := true, tagOk := true, pushOk := true, slackConfigured := true,
    delivery1 := true, delivery2 := true }

/-- A run where the requirements file is absent. -/
def wMissingManifest : World :=
  { wAllOk with requirementsExists := false }

/-- A run where pip exits with status 1 and everything else succeeds. -/
def wPipFails : World :=
  { wAllOk with pipExit := 1 }

/-- A run where the test suite exits with status 1. -/
def wTestsFail : World :=
  { wAllOk with testsExit := 1 }

/-- A run where venv creation raises. -/
def wVenvFails : World :=
  { wAllOk with venvOk := false }

/-- A run where the docker build fails. -/
def wBuildFails : World :=
  { wAllOk with buildOk := false }

/-- A run where tagging fails after a successful build. -/
def wTagFails : World :=
  { wAllOk with tagOk := false }

/-- A run where the push fails after a successful tag. -/
def wPushFails : World :=
  { wAllOk with pushOk := false }

theorem send_slack_notification_message (c d : Bool) (m : String) :
    (send_slack_notification c d m).message = m := by
  cases c <;> cases d <;> rfl

/-- Workhorse: `main` is the closed form selected by `firstFailure`. -/
theorem main_spec (w : World) (cfg : DockerConfig) :
    main w cfg =
      match firstFailure w with
      | none => successRun w cfg
      | some fs => failRun w cfg fs := by
  obtain ⟨v, r, pe, te, b, tg, p, sc, d1, d2⟩ := w
  by_cases hte : te = 0 <;>
    cases v <;> cases r <;> cases b <;> cases tg <;> cases p <;>
      simp [main, firstFailure, successRun, failRun, failurePath, create_venv,
        install_dependencies, run_tests, build_docker_image, tag_docker_image,
        push_docker_image, rollback_deployment, failMessage, rollbackOutcomeMessage,
        failError, errStr, stagesUpTo, repositoryBound, hte]

/-- The run fully succeeds exactly when no stage fails. -/
theorem firstFailure_eq_none_iff (w : World) :
    firstFailure w = none ↔ pipelineSucceedsB w = true := by
  obtain ⟨v, r, pe, te, b, tg, p, sc, d1, d2⟩ := w
  by_cases hte : te = 0 <;>
    cases v <;> cases r <;> cases b <;> cases tg <;> cases p <;>
      simp [firstFailure, pipelineSucceedsB, hte]

/-- C1 counterexample.  With the requirements file absent (and venv
creation fine), `install_dependencies` raises `FileNotFoundError` — not a
soft-skip — and the run aborts with exit status 1 having entered only the
venv and install stages: the test stage is never reached. -/
theorem c1_missing_manifest_aborts :
    install_dependencies false 0
        = Except.error (PyError.fileNotFound "Requirements file requirements.txt not found.")
      ∧ (main wMissingManifest cfg0).exitCode = 1
      ∧ (main wMissingManifest cfg0).stagesAttempted = [Stage.venv, Stage.install]
      ∧ Stage.test ∉ (main wMissingManifest cfg0).stagesAttempted := by
  refine ⟨rfl, ?_, ?_, ?_⟩ <;> decide

/-- C1 amended.  When the dependency manifest does not exist,
`install_dependencies` raises `FileNotFoundError` (a hard error, not a
soft-skip); the pipeline aborts before the test stage, sends the failure
notification followed by a rollback-failure notification (the rollback
call raises NameError since `repository` is unbound), leaves the config
untouched and exits 1. -/
theorem c1_missing_manifest_amended (w : World) (cfg : DockerConfig)
    (hv : w.venvOk = true) (hr : w.requirementsExists = false) :
    (main w cfg).exitCode = 1
      ∧ (main w cfg).stagesAttempted = [Stage.venv, Stage.install]
      ∧ Stage.test ∉ (main w cfg).stagesAttempted
      ∧ (main w cfg).sends.map SendLog.message =
          ["Deployment failed: "
              ++ errStr (PyError.fileNotFound ("Requirements file "
                ++ REQUIREMENTS_FILE ++ " not found.")) ++ " ❌",
            "Rollback failed: " ++ errStr (PyError.nameError "repository") ++ " ❌❌"]
      ∧ (main w cfg).rollbackCalls = []
      ∧ (main w cfg).finalConfig = cfg := by
  have h : firstFailure w = some FailStage.install := by
    simp [firstFailure, hv, hr]
  rw [main_spec, h]
  simp [failRun, send_slack_notification_message, failMessage, failError,
    rollbackOutcomeMessage, repositoryBound, stagesUpTo]

theorem c1_missing_manifest_amended_w :
    (main wMissingManifest cfg0).exitCode = 1 :=
  (c1_missing_manifest_amended wMissingManifest cfg0 rfl rfl).1

/-- C2.  The config's `Tag` is rewritten exactly when every stage through
the push succeeds, its new value is `"v"` ++ the config's `Version`, and
no other field (`ImageName`, `Repository`, `Version`) is ever rewritten. -/
theorem c2_tag_rewritten_iff_full_success (w : World) (cfg : DockerConfig) :
    (main w cfg).configWritten = pipelineSucceedsB w
      ∧ (main w cfg).finalConfig.tag
          = (if pipelineSucceedsB w then "v" ++ cfg.version else cfg.tag)
      ∧ (main w cfg).finalConfig.imageName = cfg.imageName
      ∧ (main w cfg).finalConfig.repository = cfg.repository
      ∧ (main w cfg).finalConfig.version = cfg.version := by
  rw [main_spec]
  rcases hf : firstFailure w with _ | fs
  · have hs : pipelineSucceedsB w = true := (firstFailure_eq_none_iff w).mp hf
    simp [successRun, hs]
  · have hs : pipelineSucceedsB w = false := by
      cases hps : pipelineSucceedsB w
      · rfl
      · rw [(firstFailure_eq_none_iff w).mpr hps] at hf
        cases hf
    simp [failRun, hs]

/-- C3 counterexample.  The persistence step of a fully successful run on
`cfg0` rewrites the file to the serialization of `cfg0new`; a crash just
after `open(CONFIG_FILE, 'w')` truncated the file leaves content that is
neither the complete old value nor the complete new one. -/
theorem c3_persist_truncation :
    (main wAllOk cfg0).finalConfig = cfg0new
      ∧ persistWithCrash (serializeConfig cfg0) cfg0new CrashPoint.afterTruncate
          ≠ serializeConfig cfg0
      ∧ persistWithCrash (serializeConfig cfg0) cfg0new CrashPoint.afterTruncate
          ≠ serializeConfig cfg0new := by
  refine ⟨?_, ?_, ?_⟩ <;> decide

/-- C3 amended.  The persistence step is an in-place truncate-then-write
(`open(CONFIG_FILE, 'w')` followed by `config.write`), not an atomic
replace: after a crash the on-disk config is the complete old content only
if the crash happened before the open; at any later crash point it is a
(possibly empty, possibly truncated) prefix of the new serialization. -/
theorem c3_persist_crash_leaves_prefix (oldContent : List Char) (c : DockerConfig)
    (cp : CrashPoint) :
    persistWithCrash oldContent c cp = oldContent
      ∨ ∃ rest, persistWithCrash oldContent c cp ++ rest = serializeConfig c := by
  cases cp with
  | beforeOpen => exact Or.inl rfl
  | afterTruncate => exact Or.inr ⟨serializeConfig c, rfl⟩
  | midWrite k => exact Or.inr ⟨(serializeConfig c).drop k, List.take_append_drop k _⟩
  | afterWrite => exact Or.inr ⟨[], List.append_nil _⟩

/-- C4 counterexample.  With the manifest present and the install tool
(pip) exiting with status 1, `install_dependencies` returns normally - no
hard error — the test stage runs, and the whole pipeline completes with
exit status 0 and the config rewritten. -/
theorem c4_pip_failure_ignored :
    install_dependencies true 1 = Except.ok ()
      ∧ (main wPipFails cfg0).exitCode = 0
      ∧ Stage.test ∈ (main wPipFails cfg0).stagesAttempted
      ∧ (main wPipFails cfg0).configWritten = true := by
  refine ⟨rfl, ?_, ?_, ?_⟩ <;> decide

/-- C4 amended.  The install tool's exit status is discarded
(`os.system`'s return value is never checked): when the manifest exists
`install_dependencies` returns normally whatever the exit status, and the
entire run is independent of it; no `DependencyInstallError` exists in the
code. -/
theorem c4_pip_exit_status_irrelevant (w : World) (cfg : DockerConfig) (p : Int) :
    install_dependencies true p = Except.ok ()
      ∧ main { w with pipExit := p } cfg = main w cfg := by
  exact ⟨rfl, rfl⟩

/-- C5 counterexample.  A run whose test stage fails is a failing run
(exit status 1) in which `rollback_deployment` is executed zero times, not
once: evaluating the argument `repository` at the call site raises
NameError before the function runs. -/
theorem c5_early_failure_no_rollback_invocation :
    (main wTestsFail cfg0).exitCode = 1
      ∧ (main wTestsFail cfg0).rollbackCalls = [] := by
  refine ⟨?_, ?_⟩ <;> decide

/-- C5 amended.  On any stage failure the orchestrator sends a failure
notification containing the error, attempts the rollback call, sends
exactly one rollback-outcome notification, and exits 1 with the config
unwritten; no later forward stage is attempted.  The rollback function
itself, however, executes once only when the failure occurred at the
build, tag or push stage (after `repository` was bound); for earlier
failures it executes zero times (NameError at the call) and the outcome
notification is the rollback-failure one. -/
theorem c5_failure_sequence (w : World) (cfg : DockerConfig) (fs : FailStage)
    (h : firstFailure w = some fs) :
    (main w cfg).exitCode = 1
      ∧ (main w cfg).configWritten = false
      ∧ (main w cfg).stagesAttempted = stagesUpTo fs
      ∧ Stage.persist ∉ (main w cfg).stagesAttempted
      ∧ Stage.notifySuccess ∉ (main w cfg).stagesAttempted
      ∧ (main w cfg).sends.map SendLog.message
          = [failMessage fs, rollbackOutcomeMessage fs cfg.tag]
      ∧ (main w cfg).rollbackCalls
          = (if repositoryBound fs then [(cfg.repository, cfg.tag)] else []) := by
  rw [main_spec, h]
  refine ⟨rfl, rfl, rfl, ?_, ?_, ?_, rfl⟩
  · show Stage.persist ∉ stagesUpTo fs
    cases fs <;> decide
  · show Stage.notifySuccess ∉ stagesUpTo fs
    cases fs <;> decide
  · simp [failRun, send_slack_notification_message]

theorem c5_failure_sequence_w :
    (main wTestsFail cfg0).configWritten = false :=
  (c5_failure_sequence wTestsFail cfg0 FailStage.test (by decide)).2.1

/-- C6.  Whenever `rollback_deployment` actually runs, its `previous_tag`
argument is exactly the `Tag` value snapshotted from the loaded config
before any stage executed (line 238), and its `repository` argument the
loaded config's `Repository`; no reloaded or mutated value is ever passed
(the in-memory `Tag` mutation happens only on the all-success path, where
rollback never runs). -/
theorem c6_rollback_uses_snapshot (w : World) (cfg : DockerConfig)
    (pr : String × String) (h : pr ∈ (main w cfg).rollbackCalls) :
    pr = (cfg.repository, cfg.tag) := by
  rw [main_spec] at h
  rcases hf : firstFailure w with _ | fs <;> rw [hf] at h
  · simp [successRun] at h
  · simp only [failRun] at h
    rcases hb : repositoryBound fs <;> rw [hb] at h <;> simp at h
    exact h

theorem c6_rollback_uses_snapshot_w :
    ("example/app", "v1.0") = (cfg0.repository, cfg0.tag) :=
  c6_rollback_uses_snapshot wPushFails cfg0 ("example/app", "v1.0") (by decide)

/-- C7.  The run outcome (exit status, final config, config-write flag,
rollback executions, stages entered) is identical whatever the delivery
outcomes of the notifications, and the messages handed to the sink are the
same; with no webhook configured every send is a no-op (skipped), never an
error.  `send_slack_notification` returning `SendLog` rather than an
`Except` embeds that it never re-raises. -/
theorem c7_notification_failures_soft (w : World) (cfg : DockerConfig) (d1 d2 : Bool) :
    RunResult.outcome (main (setDelivery w d1 d2) cfg) = RunResult.outcome (main w cfg)
      ∧ (main (setDelivery w d1 d2) cfg).sends.map SendLog.message
          = (main w cfg).sends.map SendLog.message
      ∧ (main (noWebhook w) cfg).sends.all SendLog.skippedB = true := by
  have h1 : firstFailure (setDelivery w d1 d2) = firstFailure w := rfl
  have h2 : firstFailure (noWebhook w) = firstFailure w := rfl
  refine ⟨?_, ?_, ?_⟩
  · rw [main_spec, main_spec, h1]
    rcases firstFailure w with _ | fs <;>
      simp [successRun, failRun, RunResult.outcome, setDelivery]
  · rw [main_spec, main_spec, h1]
    rcases firstFailure w with _ | fs <;>
      simp [successRun, failRun, send_slack_notification_message]
  · rw [main_spec, h2]
    rcases firstFailure w with _ | fs <;>
      simp [successRun, failRun, noWebhook, send_slack_notification, SendLog.skippedB]

/-- C8 counterexample.  Two failing runs on `cfg0`: in the first (build
failure, `repository` bound) the rollback runs and the rolled-back
notification is sent; in the second (test failure) the rollback attempt
fails with NameError and the rollback-failure notification is sent.  Both
reach `sys.exit(1)`: the exit status does not separate
failure-with-successful-rollback from failure-with-failed-rollback. -/
theorem c8_exit_status_conflates_rollback_outcomes :
    (main wBuildFails cfg0).rollbackCalls = [("example/app", "v1.0")]
      ∧ (main wBuildFails cfg0).sends.map SendLog.message
          = ["Deployment failed: docker build failed ❌",
             "Rolled back to previous version: v1.0"]
      ∧ (main wTestsFail cfg0).rollbackCalls = []
      ∧ (main wTestsFail cfg0).sends.map SendLog.message
          = ["Deployment failed: name \x27subprocess\x27 is not defined ❌",
             "Rollback failed: name \x27repository\x27 is not defined ❌❌"]
      ∧ (main wBuildFails cfg0).exitCode = (main wTestsFail cfg0).exitCode := by
  refine ⟨?_, ?_, ?_, ?_, ?_⟩ <;> decide

/-- C8 amended.  The exit status distinguishes only clean success (0)
from any failure (1): failure with successful rollback and failure with
failed rollback both exit 1 and are told apart only by the rollback
outcome notification and log content, not by the process status. -/
theorem c8_exit_status_binary (w : World) (cfg : DockerConfig) :
    (main w cfg).exitCode = (if pipelineSucceedsB w then 0 else 1) := by
  rw [main_spec]
  rcases hf : firstFailure w with _ | fs
  · have hs : pipelineSucceedsB w = true := (firstFailure_eq_none_iff w).mp hf
    simp [successRun, hs]
  · have hs : pipelineSucceedsB w = false := by
      cases hps : pipelineSucceedsB w
      · rfl
      · rw [(firstFailure_eq_none_iff w).mpr hps] at hf
        cases hf
    simp [failRun, hs]

/-- C9.  When the first failure happens before the Docker configuration
values are read (venv creation, dependency install, or test stage), the
local `repository` is unbound, so the rollback call itself raises
NameError before `rollback_deployment` runs; the rollback-failure handler
catches it and sends the rollback-failure notification (naming the
NameError for `repository`) instead of the rolled-back one, and the
process still exits with status 1. -/
theorem c9_early_failure_name_error (w : World) (cfg : DockerConfig) (fs : FailStage)
    (h : firstFailure w = some fs) (hb : repositoryBound fs = false) :
    (main w cfg).rollbackCalls = []
      ∧ (main w cfg).exitCode = 1
      ∧ (main w cfg).sends.map SendLog.message
          = [failMessage fs,
             "Rollback failed: " ++ errStr (PyError.nameError "repository") ++ " ❌❌"]
      ∧ (main w cfg).finalConfig = cfg := by
  rw [main_spec, h]
  refine ⟨?_, rfl, ?_, rfl⟩
  · simp [failRun, hb]
  · simp [failRun, send_slack_notification_message, rollbackOutcomeMessage, hb]

theorem c9_early_failure_name_error_w :
    (main wVenvFails cfg0).rollbackCalls = [] :=
  (c9_early_failure_name_error wVenvFails cfg0 FailStage.venv (by decide) rfl).1

/-- C10.  `rollback_deployment` returns normally on every pair of inputs
(its body is a stub) and, being a pure function of its arguments, touches
no registry or config state; consequently, whenever a failure occurs with
`repository` bound (build, tag or push stage), rollback executes exactly
once, the rollback-failure branch is unreachable, and the rolled-back
notification is the one sent, with the on-disk config unchanged. -/
theorem c10_rollback_stub_never_fails (repository : String) (previous_tag : String)
    (w : World) (cfg : DockerConfig) (fs : FailStage)
    (h : firstFailure w = some fs) (hb : repositoryBound fs = true) :
    rollback_deployment repository previous_tag = Except.ok ()
      ∧ (main w cfg).rollbackCalls = [(cfg.repository, cfg.tag)]
      ∧ (main w cfg).sends.map SendLog.message
          = [failMessage fs, "Rolled back to previous version: " ++ cfg.tag]
      ∧ (main w cfg).finalConfig = cfg
      ∧ (main w cfg).exitCode = 1 := by
  rw [main_spec, h]
  refine ⟨rfl, ?_, ?_, rfl, rfl⟩
  · simp [failRun, hb]
  · simp [failRun, send_slack_notification_message, rollbackOutcomeMessage, hb]

theorem c10_rollback_stub_never_fails_w :
    rollback_deployment "example/app" "v1.0" = Except.ok () :=
  (c10_rollback_stub_never_fails "example/app" "v1.0" wTagFails cfg0 FailStage.tagStage
    (by decide) rfl).1

end Pipeline
